import Mathlib

/-!
# Verification of pycloudlib's layered configuration resolution engine

This file embeds the configuration subsystem of pycloudlib
(`pycloudlib/config.py`, `pycloudlib/config_schemas.py`, and
`BaseCloud._check_and_set_config` from `pycloudlib/cloud.py`) as executable
Lean definitions and proves properties of the embedding.

Modelling conventions:
* Python dictionaries (insertion-ordered, unique keys) are association lists
  `List (String × α)`; lookup returns the first matching entry and
  assignment replaces the first matching entry in place or appends.
  Faithfulness to Python dicts is expressed through `nodupKeys` hypotheses
  where a theorem needs key uniqueness.
* TOML scalar values and Python `None` are the inductive `PyVal`.
* The filesystem / `toml.load` is an oracle `String → LoadResult`: a source
  path either does not exist (`FileNotFoundError`), fails to parse
  (`toml.TomlDecodeError`), or yields a parsed document.
* `os.environ.get("PYCLOUDLIB_CONFIG")` is an `Option String` parameter;
  the Python code treats an empty string as unset (falsy).
* Exceptions are `Except` values.
-/

/-- A Python/TOML value: `None`, a string, a boolean, or an integer.
(The claims never depend on floats or nested tables inside a section;
sections are flat maps per the configuration design.) -/
inductive PyVal where
  | pyNone : PyVal
  | pyStr : String → PyVal
  | pyBool : Bool → PyVal
  | pyInt : Int → PyVal
deriving DecidableEq, Repr

/-- `v is not None` in Python. -/
def PyVal.isNotNone : PyVal → Bool
  | .pyNone => false
  | _ => true

/-- A flat provider section: a Python dict from key to value. -/
abbrev Sect := List (String × PyVal)

/-- A parsed configuration document: provider identifier → section.
(`toml.load` returns a nested dict; top-level tables are the sections.) -/
abbrev Document := List (String × Sect)

/-- Python dict read `d.get(k)` / `k in d`: first matching entry. -/
def lookupFirst {α : Type} : List (String × α) → String → Option α
  | [], _ => none
  | (k', v) :: rest, k => if k' = k then some v else lookupFirst rest k

/-- Python dict assignment `d[k] = v`: replace the first entry with key `k`
in place, or append a new entry. -/
def dictSet : Sect → String → PyVal → Sect
  | [], k, v => [(k, v)]
  | (k', v') :: rest, k, v =>
      if k' = k then (k, v) :: rest else (k', v') :: dictSet rest k v

/-- The keys of an association list are pairwise distinct, as they are in
every real Python dict. -/
def nodupKeys {α : Type} (l : List (String × α)) : Prop :=
  (l.map Prod.fst).Nodup

instance {α : Type} (l : List (String × α)) : Decidable (nodupKeys l) := by
  unfold nodupKeys; infer_instance

namespace Config

/-- `Config.__getitem__` from `pycloudlib/config.py`: dict access that, on a
missing key, raises
`KeyError(f"{key} must be defined in pycloudlib.toml to make this call")`. -/
def getItem {α : Type} (d : List (String × α)) (k : String) : Except String α :=
  match lookupFirst d k with
  | some v => Except.ok v
  | none => Except.error (k ++ " must be defined in pycloudlib.toml to make this call")

end Config

/-- The scalar types used by the JSON schemas in `config_schemas.py`. -/
inductive SType where
  | sString : SType
  | sBoolean : SType
deriving DecidableEq, Repr

/-- A declarative cloud-configuration schema, as the JSON-schema dicts of
`config_schemas.py`: recognized properties with their types, the required
subset, and the `additionalProperties` policy. -/
structure Schema where
  properties : List (String × SType)
  required : List String
  additionalProperties : Bool
deriving DecidableEq, Repr

/-- `BASE_CLOUD_SCHEMA["properties"]`: common SSH-key fields. -/
def BASE_CLOUD_PROPERTIES : List (String × SType) :=
  [("public_key_path", SType.sString),
   ("private_key_path", SType.sString),
   ("key_name", SType.sString)]

def EC2_SCHEMA : Schema :=
  { properties := BASE_CLOUD_PROPERTIES ++
      [("region", SType.sString), ("access_key_id", SType.sString),
       ("secret_access_key", SType.sString), ("profile", SType.sString)],
    required := [],
    additionalProperties := false }

def AZURE_SCHEMA : Schema :=
  { properties := BASE_CLOUD_PROPERTIES ++
      [("client_id", SType.sString), ("client_secret", SType.sString),
       ("subscription_id", SType.sString), ("tenant_id", SType.sString),
       ("region", SType.sString)],
    required := ["client_id", "client_secret", "subscription_id", "tenant_id"],
    additionalProperties := false }

def GCE_SCHEMA : Schema :=
  { properties := BASE_CLOUD_PROPERTIES ++
      [("credentials_path", SType.sString), ("project", SType.sString),
       ("region", SType.sString), ("zone", SType.sString),
       ("service_account_email", SType.sString)],
    required := ["credentials_path", "project"],
    additionalProperties := false }

def IBM_SCHEMA : Schema :=
  { properties := BASE_CLOUD_PROPERTIES ++
      [("resource_group", SType.sString), ("vpc", SType.sString),
       ("api_key", SType.sString), ("region", SType.sString),
       ("zone", SType.sString), ("floating_ip_substring", SType.sString)],
    required := [],
    additionalProperties := false }

def IBM_CLASSIC_SCHEMA : Schema :=
  { properties := BASE_CLOUD_PROPERTIES ++
      [("username", SType.sString), ("api_key", SType.sString),
       ("domain_name", SType.sString)],
    required := ["username", "api_key", "domain_name"],
    additionalProperties := false }

def LXD_SCHEMA : Schema :=
  { properties := BASE_CLOUD_PROPERTIES,
    required := [],
    additionalProperties := false }

def OCI_SCHEMA : Schema :=
  { properties := BASE_CLOUD_PROPERTIES ++
      [("config_path", SType.sString), ("availability_domain", SType.sString),
       ("compartment_id", SType.sString), ("region", SType.sString),
       ("profile", SType.sString), ("vcn_name", SType.sString)],
    required := ["config_path", "availability_domain", "compartment_id"],
    additionalProperties := false }

def OPENSTACK_SCHEMA : Schema :=
  { properties := BASE_CLOUD_PROPERTIES ++ [("network", SType.sString)],
    required := ["network"],
    additionalProperties := false }

def QEMU_SCHEMA : Schema :=
  { properties := BASE_CLOUD_PROPERTIES ++
      [("image_dir", SType.sString), ("working_dir", SType.sString),
       ("qemu_binary", SType.sString)],
    required := ["image_dir"],
    additionalProperties := false }

def VMWARE_SCHEMA : Schema :=
  { properties := BASE_CLOUD_PROPERTIES ++
      [("server", SType.sString), ("username", SType.sString),
       ("password", SType.sString), ("datacenter", SType.sString),
       ("datastore", SType.sString), ("folder", SType.sString),
       ("insecure_transport", SType.sBoolean)],
    required := ["server", "username", "password", "datacenter", "datastore", "folder"],
    additionalProperties := false }

/-- `CLOUD_SCHEMAS` from `config_schemas.py`: provider identifier → schema. -/
def CLOUD_SCHEMAS : List (String × Schema) :=
  [("ec2", EC2_SCHEMA), ("azure", AZURE_SCHEMA), ("gce", GCE_SCHEMA),
   ("ibm", IBM_SCHEMA), ("ibm_classic", IBM_CLASSIC_SCHEMA),
   ("lxd", LXD_SCHEMA), ("oci", OCI_SCHEMA), ("openstack", OPENSTACK_SCHEMA),
   ("qemu", QEMU_SCHEMA), ("vmware", VMWARE_SCHEMA)]

/-- JSON-schema scalar type check (`"type": "string"` / `"boolean"`). -/
def typeMatches : SType → PyVal → Bool
  | .sString, .pyStr _ => true
  | .sBoolean, .pyBool _ => true
  | _, _ => false

/-- `jsonschema.validate(config, schema)` specialized to the object schemas
of `config_schemas.py`: every `required` key must be present, and every
present key must be a recognized property of matching type unless
`additionalProperties` permits extras. -/
def schemaAccepts (s : Schema) (config : Sect) : Bool :=
  s.required.all (fun k => (lookupFirst config k).isSome) &&
  config.all (fun kv =>
    match lookupFirst s.properties kv.1 with
    | some ty => typeMatches ty kv.2
    | none => s.additionalProperties)

/-- Outcome of `validate_cloud_config`: the no-schema path returns after
only logging a warning, the schema path either passes (debug log) or raises
`ValueError`. -/
inductive ValidationOutcome where
  | skippedNoSchema : ValidationOutcome
  | passed : ValidationOutcome
  | failed : ValidationOutcome
deriving DecidableEq, Repr

/-- `validate_cloud_config` from `pycloudlib/config.py`. -/
def validate_cloud_config (cloud_type : String) (config : Sect) : ValidationOutcome :=
  match lookupFirst CLOUD_SCHEMAS cloud_type with
  | none => ValidationOutcome.skippedNoSchema
  | some schema =>
      if schemaAccepts schema config then ValidationOutcome.passed
      else ValidationOutcome.failed

/-- `merge_configs` from `pycloudlib/config.py`:
`merged = base_config.copy()`, then every non-`None` entry of
`override_config` is assigned into `merged`. -/
def merge_configs (base_config override_config : Sect) : Sect :=
  override_config.foldl
    (fun merged kv => if kv.2.isNotNone then dictSet merged kv.1 kv.2 else merged)
    base_config

/-- Outcome of `toml.load(path)` for one candidate source: the file is
missing (`FileNotFoundError`), malformed (`toml.TomlDecodeError`), or a
parsed document. -/
inductive LoadResult where
  | notFound : LoadResult
  | malformed : LoadResult
  | doc : Document → LoadResult

/-- The errors `parse_config` can raise (all `ValueError` in Python). -/
inductive ParseError where
  | decodeError : String → ParseError
  | validationError : String → ParseError
  | noConfigFound : ParseError
deriving DecidableEq, Repr

/-- The message of each `parse_config` error, from the source's f-strings.
(`validationError` additionally appends the wrapped inner validation
error's text in the source; that suffix is not modelled.) -/
def ParseError.message : ParseError → String
  | .decodeError p => "Could not parse configuration file pointed to by " ++ p
  | .validationError p => "Configuration validation failed for " ++ p
  | .noConfigFound =>
      "No configuration file found! Copy pycloudlib.toml.template to ~/.config/pycloudlib.toml or /etc/pycloudlib.toml"

/-- `CONFIG_PATHS` from `pycloudlib/config.py` (the user-scoped path is kept
un-expanded; `expanduser` only rewrites `~`). -/
def CONFIG_PATHS : List String :=
  ["~/.config/pycloudlib.toml", "/etc/pycloudlib.toml"]

/-- The candidate contributed by `os.environ.get("PYCLOUDLIB_CONFIG")`:
appended only when the variable is set and non-empty (Python truthiness). -/
def envCandidates : Option String → List String
  | some s => if s = "" then [] else [s]
  | none => []

/-- `possible_configs` as built at the top of `parse_config`: explicit
caller source first, then the environment-variable path, then
`CONFIG_PATHS`. -/
def possibleConfigs (config_file : Option String) (env : Option String) : List String :=
  (match config_file with | some p => [p] | none => []) ++ envCandidates env ++ CONFIG_PATHS

/-- The `for path in possible_configs` loop of `parse_config`:
`FileNotFoundError` advances to the next candidate, `TomlDecodeError`
raises immediately, and a successfully loaded document is validated (when
`validate` and a truthy `cloud_type` naming a present section were given)
and returned. The empty list reaches the final `raise ValueError("No
configuration file found! ...")`. -/
def parseLoop (fs : String → LoadResult) (validate : Bool) (cloud_type : Option String) :
    List String → Except ParseError Document
  | [] => Except.error ParseError.noConfigFound
  | p :: rest =>
    match fs p with
    | LoadResult.notFound => parseLoop fs validate cloud_type rest
    | LoadResult.malformed => Except.error (ParseError.decodeError p)
    | LoadResult.doc d =>
      match cloud_type with
      | none => Except.ok d
      | some c =>
        if validate then
          if c = "" then Except.ok d
          else
            match lookupFirst d c with
            | none => Except.ok d
            | some sect =>
              match validate_cloud_config c sect with
              | ValidationOutcome.failed => Except.error (ParseError.validationError p)
              | _ => Except.ok d
        else Except.ok d

/-- `parse_config` from `pycloudlib/config.py`, with the filesystem and the
environment passed explicitly. -/
def parse_config (fs : String → LoadResult) (config_file : Option String)
    (env : Option String) (validate : Bool) (cloud_type : Option String) :
    Except ParseError Document :=
  parseLoop fs validate cloud_type (possibleConfigs config_file env)

/-- The errors `BaseCloud._check_and_set_config` can surface: a
`parse_config` failure or the `KeyError` of `Config.__getitem__` on a
missing provider section. -/
inductive PipelineError where
  | loadError : ParseError → PipelineError
  | keyError : String → PipelineError
deriving DecidableEq, Repr

/-- The guard `required_values and all(v is not None for v in required_values)`
from `_check_and_set_config`: a `None` or empty sequence is falsy. -/
def requiredAllProvided : Option (List PyVal) → Bool
  | none => false
  | some l => !l.isEmpty && l.all PyVal.isNotNone

/-- `BaseCloud._check_and_set_config` from `pycloudlib/cloud.py`: if every
required value was passed to the constructor, `self.config = {}` without
touching the file; otherwise `self.config = parse_config(config_file)[self._type]`
(note: `parse_config` is called with its defaults `validate=True`,
`cloud_type=None`, and the section is extracted with `Config.__getitem__`). -/
def check_and_set_config (fs : String → LoadResult) (env : Option String)
    (config_file : Option String) (required_values : Option (List PyVal))
    (cloud_type : String) : Except PipelineError Sect :=
  if requiredAllProvided required_values then Except.ok []
  else
    match parse_config fs config_file env true none with
    | Except.error e => Except.error (PipelineError.loadError e)
    | Except.ok d =>
      match Config.getItem d cloud_type with
      | Except.ok s => Except.ok s
      | Except.error m => Except.error (PipelineError.keyError m)

/-- `pat` occurs at the head of `s` (character lists). -/
def charsStartWith : List Char → List Char → Bool
  | [], _ => true
  | _ :: _, [] => false
  | a :: as, b :: bs => a = b && charsStartWith as bs

/-- `pat` occurs somewhere inside `s` (character lists). -/
def charsContain (pat : List Char) : List Char → Bool
  | [] => charsStartWith pat []
  | c :: rest => charsStartWith pat (c :: rest) || charsContain pat rest

/-- Substring test on strings, used to state what an error message does and
does not mention. -/
def strContainsSub (s pat : String) : Bool :=
  charsContain pat.data s.data

/-! ## Helper lemmas about the dict primitives and `merge_configs` -/

theorem lookupFirst_eq_none {α : Type} (l : List (String × α)) (k : String)
    (h : k ∉ l.map Prod.fst) : lookupFirst l k = none := by
  induction l with
  | nil => rfl
  | cons a rest ih =>
      obtain ⟨ak, av⟩ := a
      have hne : ak ≠ k := by
        intro hh
        exact h (by simp [hh])
      simp only [lookupFirst, if_neg hne]
      exact ih (fun hm => h (by simp [hm]))

theorem lookupFirst_dictSet (m : Sect) (k k' : String) (v : PyVal) :
    lookupFirst (dictSet m k v) k' = if k = k' then some v else lookupFirst m k' := by
  induction m with
  | nil => simp [dictSet, lookupFirst]
  | cons a rest ih =>
      obtain ⟨ak, av⟩ := a
      by_cases h : ak = k
      · subst h
        simp only [dictSet, if_pos rfl, lookupFirst]
        by_cases h2 : ak = k' <;> simp [h2]
      · simp only [dictSet, if_neg h, lookupFirst]
        by_cases h2 : ak = k'
        · have hkk : ¬(k = k') := fun hh => h (h2.trans hh.symm)
          simp [h2, hkk]
        · simp [h2, ih]

theorem dictSet_of_not_mem (m : Sect) (k : String) (v : PyVal)
    (h : k ∉ m.map Prod.fst) : dictSet m k v = m ++ [(k, v)] := by
  induction m with
  | nil => rfl
  | cons a rest ih =>
      obtain ⟨ak, av⟩ := a
      have hne : ak ≠ k := by
        intro hh
        exact h (by simp [hh])
      simp only [dictSet, if_neg hne, List.cons_append, List.cons.injEq, true_and]
      exact ih (fun hm => h (by simp [hm]))

theorem dictSet_of_lookup (m : Sect) (k : String) (v : PyVal)
    (h : lookupFirst m k = some v) : dictSet m k v = m := by
  induction m with
  | nil => simp [lookupFirst] at h
  | cons a rest ih =>
      obtain ⟨ak, av⟩ := a
      by_cases hk : ak = k
      · subst hk
        have hav : av = v := by simpa [lookupFirst] using h
        subst hav
        simp [dictSet]
      · simp only [lookupFirst, if_neg hk] at h
        simp [dictSet, hk, ih h]

theorem merge_configs_cons (base : Sect) (x : String × PyVal) (t : Sect) :
    merge_configs base (x :: t) =
      merge_configs (if PyVal.isNotNone x.2 then dictSet base x.1 x.2 else base) t := rfl

theorem isNotNone_false_iff (v : PyVal) : PyVal.isNotNone v = false ↔ v = PyVal.pyNone := by
  cases v <;> simp [PyVal.isNotNone]

theorem merge_lookup (base override : Sect) (k : String) (h : nodupKeys override) :
    lookupFirst (merge_configs base override) k =
      (match lookupFirst override k with
       | some v => if v = PyVal.pyNone then lookupFirst base k else some v
       | none => lookupFirst base k) := by
  induction override generalizing base with
  | nil => simp [merge_configs, lookupFirst]
  | cons x t ih =>
      obtain ⟨xk, xv⟩ := x
      have hnd : nodupKeys t := by
        simpa [nodupKeys] using (List.nodup_cons.mp h).2
      have hxk : xk ∉ t.map Prod.fst := by
        simpa [nodupKeys] using (List.nodup_cons.mp h).1
      rw [merge_configs_cons, ih _ hnd]
      by_cases hk : xk = k
      · subst hk
        rw [lookupFirst_eq_none t xk hxk]
        simp only [lookupFirst, if_pos rfl]
        by_cases hv : xv = PyVal.pyNone
        · subst hv
          simp [PyVal.isNotNone]
        · have hnn : PyVal.isNotNone xv = true := by
            cases xv <;> simp_all [PyVal.isNotNone]
          simp [hnn, lookupFirst_dictSet, hv]
      · have hstep :
            lookupFirst (if PyVal.isNotNone xv then dictSet base xk xv else base) k
              = lookupFirst base k := by
          by_cases hv : PyVal.isNotNone xv
          · simp [hv, lookupFirst_dictSet, hk]
          · simp [hv]
        simp only [lookupFirst, if_neg hk]
        cases hlt : lookupFirst t k <;> simp [hlt, hstep]

theorem merge_configs_disjoint (t : Sect) : ∀ acc : Sect, nodupKeys t →
    (∀ k ∈ acc.map Prod.fst, k ∉ t.map Prod.fst) →
    merge_configs acc t = acc ++ t.filter (fun kv => PyVal.isNotNone kv.2) := by
  induction t with
  | nil =>
      intro acc _ _
      simp [merge_configs]
  | cons x t' ih =>
      intro acc hnd hdisj
      obtain ⟨xk, xv⟩ := x
      have hnd' : nodupKeys t' := by
        simpa [nodupKeys] using (List.nodup_cons.mp hnd).2
      have hxnot : xk ∉ t'.map Prod.fst := by
        simpa [nodupKeys] using (List.nodup_cons.mp hnd).1
      rw [merge_configs_cons]
      by_cases hv : PyVal.isNotNone xv
      · have hxacc : xk ∉ acc.map Prod.fst := by
          intro hmem
          exact hdisj xk hmem (by simp)
        have hdisj' : ∀ k ∈ (acc ++ [(xk, xv)]).map Prod.fst, k ∉ t'.map Prod.fst := by
          intro k hk
          rcases (by simpa using hk : k ∈ acc.map Prod.fst ∨ k = xk) with hka | hke
          · intro hmem
            exact hdisj k hka (by simp [hmem])
          · subst hke
            exact hxnot
        simp only [hv, if_true]
        rw [dictSet_of_not_mem acc xk xv hxacc, ih (acc ++ [(xk, xv)]) hnd' hdisj']
        simp [List.filter_cons, hv]
      · have hdisj' : ∀ k ∈ acc.map Prod.fst, k ∉ t'.map Prod.fst := by
          intro k hk hmem
          exact hdisj k hk (by simp [hmem])
        have hvf : PyVal.isNotNone xv = false := by
          cases hb : PyVal.isNotNone xv
          · rfl
          · exact absurd hb hv
        simp only [hvf, Bool.false_eq_true, if_false]
        rw [ih acc hnd' hdisj']
        simp [List.filter_cons, hvf]

theorem merge_configs_idem : ∀ (o : Sect) (b : Sect), nodupKeys o →
    merge_configs (merge_configs b o) o = merge_configs b o := by
  intro o
  induction o with
  | nil =>
      intro b _
      rfl
  | cons x t ih =>
      intro b h
      obtain ⟨xk, xv⟩ := x
      have hnd : nodupKeys t := by
        simpa [nodupKeys] using (List.nodup_cons.mp h).2
      have hxk : xk ∉ t.map Prod.fst := by
        simpa [nodupKeys] using (List.nodup_cons.mp h).1
      rw [merge_configs_cons, merge_configs_cons]
      by_cases hv : PyVal.isNotNone xv
      · simp only [hv, if_true]
        have hlook : lookupFirst (merge_configs (dictSet b xk xv) t) xk = some xv := by
          rw [merge_lookup _ _ _ hnd, lookupFirst_eq_none t xk hxk, lookupFirst_dictSet]
          simp
        rw [dictSet_of_lookup _ _ _ hlook]
        exact ih (dictSet b xk xv) hnd
      · have hvf : PyVal.isNotNone xv = false := by
          cases hb : PyVal.isNotNone xv
          · rfl
          · exact absurd hb hv
        simp only [hvf, Bool.false_eq_true, if_false]
        exact ih b hnd

/-! ## Helper lemmas about `parse_config` -/

theorem parseLoop_all_notFound (fs : String → LoadResult) (v : Bool) (ct : Option String) :
    ∀ l : List String, (∀ p ∈ l, fs p = LoadResult.notFound) →
    parseLoop fs v ct l = Except.error ParseError.noConfigFound := by
  intro l
  induction l with
  | nil => intro _; rfl
  | cons p rest ih =>
      intro h
      have hp : fs p = LoadResult.notFound := h p (by simp)
      simp only [parseLoop, hp]
      exact ih (fun q hq => h q (by simp [hq]))

theorem parseLoop_none_ct_validate_irrel (fs : String → LoadResult) (v v' : Bool) :
    ∀ l : List String, parseLoop fs v none l = parseLoop fs v' none l := by
  intro l
  induction l with
  | nil => rfl
  | cons p rest ih =>
      cases hp : fs p <;> simp [parseLoop, hp, ih]

theorem parseLoop_none_ct_no_validation (fs : String → LoadResult) (v : Bool) :
    ∀ (l : List String) (p : String),
      parseLoop fs v none l ≠ Except.error (ParseError.validationError p) := by
  intro l
  induction l with
  | nil =>
      intro p h
      simp [parseLoop] at h
  | cons q rest ih =>
      intro p h
      cases hq : fs q <;> simp only [parseLoop, hq] at h
      · exact ih p h
      · exact absurd h (by simp)
      · exact absurd h (by simp)

/-- Claim C4: the document loader tries candidates in order (explicit
source, then the `PYCLOUDLIB_CONFIG` path, then `CONFIG_PATHS`); a missing
file (`FileNotFoundError`) advances to the next candidate, while a
malformed document aborts immediately with the decode error, never falling
through — for every filesystem, hence even when a later candidate is
valid. -/
theorem parse_config_candidate_order_and_fallthrough (fs : String → LoadResult)
    (env : Option String) (v : Bool) (ct : Option String) (p : String) :
    (∀ e, e ≠ "" → possibleConfigs (some p) (some e) = p :: e :: CONFIG_PATHS) ∧
    (fs p = LoadResult.notFound →
      parse_config fs (some p) env v ct = parse_config fs none env v ct) ∧
    (fs p = LoadResult.malformed →
      parse_config fs (some p) env v ct = Except.error (ParseError.decodeError p)) ∧
    (∀ e, e ≠ "" → fs e = LoadResult.notFound →
      parse_config fs none (some e) v ct = parse_config fs none none v ct) := by
  refine ⟨?_, ?_, ?_, ?_⟩
  · intro e he
    simp [possibleConfigs, envCandidates, he]
  · intro h
    simp [parse_config, possibleConfigs, parseLoop, h]
  · intro h
    simp [parse_config, possibleConfigs, parseLoop, h]
  · intro e he h
    simp [parse_config, possibleConfigs, envCandidates, he, parseLoop, h]

/-- A filesystem where no candidate source exists at all. -/
def allNotFoundFs : String → LoadResult := fun _ => LoadResult.notFound

/-- Witness for C4 at a concrete filesystem and explicit path. -/
theorem parse_config_candidate_order_and_fallthrough_witness :
    (("env.toml" : String) ≠ "") ∧
    possibleConfigs (some "cfg.toml") (some "env.toml") = "cfg.toml" :: "env.toml" :: CONFIG_PATHS ∧
    allNotFoundFs "cfg.toml" = LoadResult.notFound ∧
    parse_config allNotFoundFs (some "cfg.toml") (some "env.toml") true none
      = parse_config allNotFoundFs none (some "env.toml") true none :=
  ⟨by decide,
   (parse_config_candidate_order_and_fallthrough allNotFoundFs (some "env.toml") true none
      "cfg.toml").1 "env.toml" (by decide),
   rfl,
   (parse_config_candidate_order_and_fallthrough allNotFoundFs (some "env.toml") true none
      "cfg.toml").2.1 rfl⟩

/-- Claim C5, counterexample: with an explicit path and an environment path
supplied and no source existing anywhere, the raised error's message is the
fixed `"No configuration file found! ..."` string, which names neither the
explicit caller-supplied path nor the environment-variable path. -/
theorem no_config_error_omits_explicit_paths :
    parse_config allNotFoundFs (some "/tmp/custom.toml") (some "/tmp/env.toml") true none
      = Except.error ParseError.noConfigFound ∧
    strContainsSub (ParseError.message ParseError.noConfigFound) "/tmp/custom.toml" = false ∧
    strContainsSub (ParseError.message ParseError.noConfigFound) "/tmp/env.toml" = false := by
  refine ⟨rfl, by decide, by decide⟩

/-- Claim C5, amended: when no candidate source exists at any attempted
location, resolution fails with the "no configuration found" error, whose
message is a fixed string naming only the two default locations
(`~/.config/pycloudlib.toml` and `/etc/pycloudlib.toml`), independent of
the explicit and environment-variable candidates. -/
theorem no_config_error_fixed_message (fs : String → LoadResult)
    (cf env : Option String) (v : Bool) (ct : Option String)
    (h : ∀ p ∈ possibleConfigs cf env, fs p = LoadResult.notFound) :
    parse_config fs cf env v ct = Except.error ParseError.noConfigFound ∧
    ParseError.message ParseError.noConfigFound =
      "No configuration file found! Copy pycloudlib.toml.template to ~/.config/pycloudlib.toml or /etc/pycloudlib.toml" ∧
    strContainsSub (ParseError.message ParseError.noConfigFound) "~/.config/pycloudlib.toml" = true ∧
    strContainsSub (ParseError.message ParseError.noConfigFound) "/etc/pycloudlib.toml" = true := by
  exact ⟨parseLoop_all_notFound fs v ct _ h, rfl, by decide, by decide⟩

/-- Witness for the amended C5 at a concrete filesystem. -/
theorem no_config_error_fixed_message_witness :
    (∀ p ∈ possibleConfigs (some "/tmp/a.toml") none, allNotFoundFs p = LoadResult.notFound) ∧
    parse_config allNotFoundFs (some "/tmp/a.toml") none true none
      = Except.error ParseError.noConfigFound :=
  ⟨fun _ _ => rfl,
   (no_config_error_fixed_message allNotFoundFs (some "/tmp/a.toml") none true none
      (fun _ _ => rfl)).1⟩

/-- Claim C9: a provider identifier with no entry in `CLOUD_SCHEMAS` makes
`validate_cloud_config` a non-raising no-op (the skip outcome, distinct
from a validated-and-passed outcome); a provider with a schema either
passes or fails, and failure is distinct from success. -/
theorem validate_cloud_config_cases (ct : String) (config : Sect) :
    (lookupFirst CLOUD_SCHEMAS ct = none →
      validate_cloud_config ct config = ValidationOutcome.skippedNoSchema) ∧
    (∀ s, lookupFirst CLOUD_SCHEMAS ct = some s →
      validate_cloud_config ct config = ValidationOutcome.passed ∨
      validate_cloud_config ct config = ValidationOutcome.failed) ∧
    (ValidationOutcome.skippedNoSchema ≠ ValidationOutcome.passed ∧
     ValidationOutcome.failed ≠ ValidationOutcome.passed) := by
  refine ⟨?_, ?_, by decide, by decide⟩
  · intro h
    simp [validate_cloud_config, h]
  · intro s hs
    simp only [validate_cloud_config, hs]
    by_cases hacc : schemaAccepts s config <;> simp [hacc]

/-- Witness for C9: an unregistered provider is skipped; a registered one
is decided. -/
theorem validate_cloud_config_cases_witness :
    lookupFirst CLOUD_SCHEMAS "unknown_cloud" = none ∧
    validate_cloud_config "unknown_cloud" [("anything", PyVal.pyStr "x")]
      = ValidationOutcome.skippedNoSchema ∧
    (validate_cloud_config "ec2" [] = ValidationOutcome.passed ∨
     validate_cloud_config "ec2" [] = ValidationOutcome.failed) :=
  ⟨by decide,
   (validate_cloud_config_cases "unknown_cloud" [("anything", PyVal.pyStr "x")]).1 (by decide),
   (validate_cloud_config_cases "ec2" []).2.1 EC2_SCHEMA (by decide)⟩

/-- Claim C10: `parse_config` validates only when a (truthy) `cloud_type`
argument is supplied and that cloud type is a section of the parsed
document; the `validate` flag alone triggers nothing, and
`_check_and_set_config` — which calls `parse_config(config_file)` with its
default `cloud_type=None` — can therefore never surface a schema-validation
error, even though `validate` defaults to `True`. -/
theorem no_validation_in_cloud_construction :
    (∀ (fs : String → LoadResult) (cf env : Option String) (v : Bool),
      parse_config fs cf env v none = parse_config fs cf env false none) ∧
    (∀ (fs : String → LoadResult) (p : String) (d : Document) (env : Option String)
        (v : Bool) (c : String),
      fs p = LoadResult.doc d → lookupFirst d c = none →
      parse_config fs (some p) env v (some c) = Except.ok d) ∧
    (∀ (fs : String → LoadResult) (env cf : Option String)
        (rv : Option (List PyVal)) (ty : String) (p : String),
      check_and_set_config fs env cf rv ty
        ≠ Except.error (PipelineError.loadError (ParseError.validationError p))) := by
  refine ⟨?_, ?_, ?_⟩
  · intro fs cf env v
    exact parseLoop_none_ct_validate_irrel fs v false (possibleConfigs cf env)
  · intro fs p d env v c hfs hlook
    by_cases hc : c = "" <;> cases v <;>
      simp [parse_config, possibleConfigs, parseLoop, hfs, hlook, hc]
  · intro fs env cf rv ty p h
    by_cases hr : requiredAllProvided rv = true
    · simp [check_and_set_config, hr] at h
    · simp only [check_and_set_config, hr, if_false, Bool.false_eq_true] at h
      cases hpc : parse_config fs cf env true none with
      | error e =>
          rw [hpc] at h
          have he : e = ParseError.validationError p := by simpa using h
          exact parseLoop_none_ct_no_validation fs true (possibleConfigs cf env) p (he ▸ hpc)
      | ok d =>
          rw [hpc] at h
          cases hgi : Config.getItem d ty <;> simp [hgi] at h

/-- A document holding only an `azure` section, behind a single existing
source path. -/
def oneSectionDoc : Document := [("azure", [("client_id", PyVal.pyStr "x")])]

def oneSectionFs : String → LoadResult :=
  fun p => if p = "cfg.toml" then LoadResult.doc oneSectionDoc else LoadResult.notFound

/-- Witness for C10: a found document without the requested section is
returned unvalidated. -/
theorem no_validation_in_cloud_construction_witness :
    oneSectionFs "cfg.toml" = LoadResult.doc oneSectionDoc ∧
    lookupFirst oneSectionDoc "ec2" = none ∧
    parse_config oneSectionFs (some "cfg.toml") none true (some "ec2")
      = Except.ok oneSectionDoc :=
  ⟨rfl, by decide,
   no_validation_in_cloud_construction.2.1 oneSectionFs "cfg.toml" oneSectionDoc none true
     "ec2" rfl (by decide)⟩

/-! ## C8: the accessor's missing-key error message -/

theorem charsContain_append_right (pat l₂ : List Char) (h : charsContain pat l₂ = true) :
    ∀ l₁ : List Char, charsContain pat (l₁ ++ l₂) = true := by
  intro l₁
  induction l₁ with
  | nil => simpa using h
  | cons c rest ih =>
      simp only [List.cons_append, charsContain]
      simp [ih]

theorem strContainsSub_append (k s pat : String) (h : strContainsSub s pat = true) :
    strContainsSub (k ++ s) pat = true := by
  unfold strContainsSub at h ⊢
  rw [String.data_append]
  exact charsContain_append_right pat.data s.data h k.data

/-- Claim C8, counterexample: the `KeyError` raised by `Config.__getitem__`
for a missing key names the key and points at `pycloudlib.toml`, but its
message nowhere states that the value could instead be supplied as an
override — the word "override" (or any constructor hint) does not occur. -/
theorem missing_key_message_no_override_mention :
    Config.getItem ([] : Sect) "region"
      = Except.error "region must be defined in pycloudlib.toml to make this call" ∧
    strContainsSub "region must be defined in pycloudlib.toml to make this call"
      "override" = false ∧
    strContainsSub "region must be defined in pycloudlib.toml to make this call"
      "constructor" = false := by
  exact ⟨rfl, by decide, by decide⟩

/-- Claim C8, amended: reading a key absent from a resolved configuration
fails with the error message `"{key} must be defined in pycloudlib.toml to
make this call"` — it names the missing key and directs the user to the
configuration source, but does not mention the override alternative. -/
theorem missing_key_message_spec {α : Type} (d : List (String × α)) (k : String)
    (h : lookupFirst d k = none) :
    Config.getItem d k
      = Except.error (k ++ " must be defined in pycloudlib.toml to make this call") ∧
    strContainsSub (k ++ " must be defined in pycloudlib.toml to make this call")
      "pycloudlib.toml" = true := by
  constructor
  · simp [Config.getItem, h]
  · exact strContainsSub_append k _ "pycloudlib.toml" (by decide)

/-- Witness for the amended C8 at a concrete section and key. -/
theorem missing_key_message_spec_witness :
    lookupFirst ([("region", PyVal.pyStr "us-west-2")] : Sect) "profile" = none ∧
    Config.getItem ([("region", PyVal.pyStr "us-west-2")] : Sect) "profile"
      = Except.error ("profile" ++ " must be defined in pycloudlib.toml to make this call") :=
  ⟨by decide,
   (missing_key_message_spec [("region", PyVal.pyStr "us-west-2")] "profile" (by decide)).1⟩

/-! ## C2: what the schema check is applied to -/

/-- An `azure` document section missing the required `client_id`. -/
def azureSectMissingId : Sect :=
  [("client_secret", PyVal.pyStr "s"), ("subscription_id", PyVal.pyStr "i"),
   ("tenant_id", PyVal.pyStr "t")]

def azureDocMissingId : Document := [("azure", azureSectMissingId)]

def azureFs : String → LoadResult :=
  fun p => if p = "azure.toml" then LoadResult.doc azureDocMissingId else LoadResult.notFound

/-- An override set supplying the missing required key. -/
def azureOverride : Sect := [("client_id", PyVal.pyStr "c")]

/-- Claim C2, counterexample: the caller's override supplies the missing
required key, so the merged mapping passes the azure schema — yet
validation-requested loading still fails, because the schema check is run
on the document's section alone, inside the loader, before any merge. -/
theorem validation_ignores_overrides_cex :
    schemaAccepts AZURE_SCHEMA (merge_configs azureSectMissingId azureOverride) = true ∧
    validate_cloud_config "azure" (merge_configs azureSectMissingId azureOverride)
      = ValidationOutcome.passed ∧
    parse_config azureFs (some "azure.toml") none true (some "azure")
      = Except.error (ParseError.validationError "azure.toml") := by
  exact ⟨by decide, by decide, rfl⟩

/-- Claim C2, amended: when validation is requested, the schema check is
applied to the document's provider section alone, before the caller's
overrides are merged: whenever the section fails its schema, loading
aborts with the validation error — even when there is an override set
whose merge with the section would satisfy the schema. -/
theorem validation_applies_to_section_not_merged (fs : String → LoadResult)
    (env : Option String) (p : String) (d : Document) (c : String)
    (sect ovr : Sect) (sch : Schema)
    (hfs : fs p = LoadResult.doc d) (hc : c ≠ "")
    (hsect : lookupFirst d c = some sect)
    (hsch : lookupFirst CLOUD_SCHEMAS c = some sch)
    (hfail : schemaAccepts sch sect = false)
    (_hmerged : schemaAccepts sch (merge_configs sect ovr) = true) :
    parse_config fs (some p) env true (some c)
      = Except.error (ParseError.validationError p) := by
  have hvc : validate_cloud_config c sect = ValidationOutcome.failed := by
    simp [validate_cloud_config, hsch, hfail]
  simp [parse_config, possibleConfigs, parseLoop, hfs, hc, hsect, hvc]

/-- Witness for the amended C2 at the concrete azure document. -/
theorem validation_applies_to_section_not_merged_witness :
    azureFs "azure.toml" = LoadResult.doc azureDocMissingId ∧
    lookupFirst azureDocMissingId "azure" = some azureSectMissingId ∧
    schemaAccepts AZURE_SCHEMA azureSectMissingId = false ∧
    schemaAccepts AZURE_SCHEMA (merge_configs azureSectMissingId azureOverride) = true ∧
    parse_config azureFs (some "azure.toml") none true (some "azure")
      = Except.error (ParseError.validationError "azure.toml") :=
  ⟨rfl, by decide, by decide, by decide,
   validation_applies_to_section_not_merged azureFs none "azure.toml" azureDocMissingId
     "azure" azureSectMissingId azureOverride AZURE_SCHEMA rfl (by decide) (by decide)
     (by decide) (by decide) (by decide)⟩

/-! ## C6: a document without the provider's section -/

/-- Claim C6, counterexample: with a loadable document that has no `base`
section, `_check_and_set_config` does not proceed with an empty mapping —
the section extraction `parse_config(config_file)[self._type]` raises the
`Config.__getitem__` `KeyError`. -/
theorem absent_section_raises_keyerror_cex :
    lookupFirst oneSectionDoc "base" = none ∧
    check_and_set_config oneSectionFs none (some "cfg.toml") none "base"
      = Except.error (PipelineError.keyError
          "base must be defined in pycloudlib.toml to make this call") ∧
    check_and_set_config oneSectionFs none (some "cfg.toml") none "base"
      ≠ Except.ok [] := by
  refine ⟨by decide, rfl, ?_⟩
  intro h
  rw [show check_and_set_config oneSectionFs none (some "cfg.toml") none "base"
      = Except.error (PipelineError.keyError
          "base must be defined in pycloudlib.toml to make this call") from rfl] at h
  exact Except.noConfusion h

/-- Claim C6, amended: if the provider identifier is absent from a
successfully loaded document, `parse_config` itself succeeds (absence is
not a load or validation error), but the subsequent section extraction via
`Config.__getitem__` raises a `KeyError` naming the provider identifier,
so resolution aborts instead of proceeding with an empty mapping. -/
theorem absent_section_raises_keyerror (fs : String → LoadResult) (env : Option String)
    (p : String) (d : Document) (ty : String)
    (hfs : fs p = LoadResult.doc d) (habs : lookupFirst d ty = none) :
    parse_config fs (some p) env true none = Except.ok d ∧
    check_and_set_config fs env (some p) none ty
      = Except.error (PipelineError.keyError
          (ty ++ " must be defined in pycloudlib.toml to make this call")) := by
  have hpc : parse_config fs (some p) env true none = Except.ok d := by
    simp [parse_config, possibleConfigs, parseLoop, hfs]
  refine ⟨hpc, ?_⟩
  simp [check_and_set_config, requiredAllProvided, hpc, Config.getItem, habs]

/-- Witness for the amended C6 at the concrete one-section document. -/
theorem absent_section_raises_keyerror_witness :
    oneSectionFs "cfg.toml" = LoadResult.doc oneSectionDoc ∧
    lookupFirst oneSectionDoc "base" = none ∧
    check_and_set_config oneSectionFs none (some "cfg.toml") none "base"
      = Except.error (PipelineError.keyError
          ("base" ++ " must be defined in pycloudlib.toml to make this call")) :=
  ⟨rfl, by decide,
   (absent_section_raises_keyerror oneSectionFs none "cfg.toml" oneSectionDoc "base" rfl
      (by decide)).2⟩

/-! ## C1: the required-values skip path of `_check_and_set_config` -/

/-- A source document whose `ec2` section defines an unrelated key
(`key_name`) besides the "required" ones. -/
def ec2DocWithKeyName : Document :=
  [("ec2", [("region", PyVal.pyStr "us-west-2"), ("key_name", PyVal.pyStr "toml-key")])]

def ec2Fs : String → LoadResult :=
  fun p => if p = "cfg.toml" then LoadResult.doc ec2DocWithKeyName else LoadResult.notFound

/-- Claim C1 (evaluation at the failing input): when every required value
is passed non-`None` to the constructor, `_check_and_set_config` inspects
override completeness and sets `self.config = {}` without loading the
document — the unrelated `key_name` defined by the present source is
silently dropped, although the very same call with an incomplete
required-value list would have loaded the full section. -/
theorem check_and_set_config_skips_load_when_required_provided :
    requiredAllProvided
      (some [PyVal.pyStr "us-east-1", PyVal.pyStr "AKIA", PyVal.pyStr "SECRET"]) = true ∧
    check_and_set_config ec2Fs none (some "cfg.toml")
      (some [PyVal.pyStr "us-east-1", PyVal.pyStr "AKIA", PyVal.pyStr "SECRET"]) "ec2"
      = Except.ok [] ∧
    lookupFirst ec2DocWithKeyName "ec2"
      = some [("region", PyVal.pyStr "us-west-2"), ("key_name", PyVal.pyStr "toml-key")] ∧
    check_and_set_config ec2Fs none (some "cfg.toml") none "ec2"
      = Except.ok [("region", PyVal.pyStr "us-west-2"), ("key_name", PyVal.pyStr "toml-key")] := by
  exact ⟨rfl, rfl, by decide, rfl⟩

/-! ## C3 and C7: the merge laws -/

/-- Concrete base section used in the merge witnesses. -/
def mergeBaseEx : Sect :=
  [("region", PyVal.pyStr "us-west-2"), ("key_name", PyVal.pyStr "kp")]

/-- Concrete override set used in the merge witnesses: one replacement,
one null no-op, one new key. -/
def mergeOvrEx : Sect :=
  [("region", PyVal.pyStr "us-east-1"), ("zone", PyVal.pyNone),
   ("profile", PyVal.pyStr "p")]

/-- Claim C3: for a base map and an override map with distinct keys (as any
Python dict has), the merge contains exactly the base entries not replaced
by a non-null override and the non-null override entries, override values
winning; a null-valued override entry is a strict no-op — lookup in the
merge equals the base lookup for it, so it neither removes a base key nor
adds an absent one. -/
theorem merge_configs_lookup_spec (base override : Sect) (k : String)
    (h : nodupKeys override) :
    lookupFirst (merge_configs base override) k =
      (match lookupFirst override k with
       | some v => if v = PyVal.pyNone then lookupFirst base k else some v
       | none => lookupFirst base k) :=
  merge_lookup base override k h

/-- Witness for C3: the null-valued `zone` override is a no-op at a
concrete merge. -/
theorem merge_configs_lookup_spec_witness :
    nodupKeys mergeOvrEx ∧
    lookupFirst (merge_configs mergeBaseEx mergeOvrEx) "zone" =
      (match lookupFirst mergeOvrEx "zone" with
       | some v => if v = PyVal.pyNone then lookupFirst mergeBaseEx "zone" else some v
       | none => lookupFirst mergeBaseEx "zone") :=
  ⟨by decide, merge_configs_lookup_spec mergeBaseEx mergeOvrEx "zone" (by decide)⟩

/-- Claim C7: the algebraic laws of `merge_configs` — merging the empty
override is the identity; merging an override (with distinct keys, as any
Python dict has) into the empty base keeps exactly its non-null entries in
order; and applying the same override twice equals applying it once. -/
theorem merge_configs_algebraic_laws :
    (∀ base : Sect, merge_configs base [] = base) ∧
    (∀ override : Sect, nodupKeys override →
      merge_configs [] override = override.filter (fun kv => PyVal.isNotNone kv.2)) ∧
    (∀ base override : Sect, nodupKeys override →
      merge_configs (merge_configs base override) override
        = merge_configs base override) := by
  refine ⟨fun _ => rfl, fun o ho => ?_, fun b o ho => merge_configs_idem o b ho⟩
  simpa using merge_configs_disjoint o [] ho (by simp)

/-- Witness for C7 at concrete maps. -/
theorem merge_configs_algebraic_laws_witness :
    nodupKeys mergeOvrEx ∧
    merge_configs mergeBaseEx [] = mergeBaseEx ∧
    merge_configs [] mergeOvrEx = mergeOvrEx.filter (fun kv => PyVal.isNotNone kv.2) ∧
    merge_configs (merge_configs mergeBaseEx mergeOvrEx) mergeOvrEx
      = merge_configs mergeBaseEx mergeOvrEx :=
  ⟨by decide, merge_configs_algebraic_laws.1 mergeBaseEx,
   merge_configs_algebraic_laws.2.1 mergeOvrEx (by decide),
   merge_configs_algebraic_laws.2.2 mergeBaseEx mergeOvrEx (by decide)⟩
